import Mathlib

/-!
Verification development for a set of Go CRUD microservices (users, orders,
payments, deliveries), each exposing List/Get/Create/Update/Delete over one
PostgreSQL table, plus a replica probe on the orders service.

The embedding below is a shallow model of the Go handlers and of the SQL
schema semantics they run against:

* each service's store is a list of rows plus the SERIAL sequence counter
  (the sequence starts at 1 and advances on successful insert);
* each handler is a pure function from the optional decoded request body
  (`none` models a JSON decode failure) and the store state to the new state,
  the list of SQL statements it executed (its store trace), and the HTTP-level
  outcome; a handler runs its single SQL statement through `execUsersOp` /
  `execOrdersOp`, mirroring the one `db.QueryRow`/`db.Exec` call in the source;
* `NOW()` is modelled by an explicit `now : Nat` argument to mutating
  operations;
* the database CHECK / UNIQUE / VARCHAR-width constraints of the init scripts
  are modelled inside the statement semantics: a violated constraint makes the
  statement fail, which the handlers surface as a 500 store error, exactly as
  the Go code does (`err != nil` that is not `sql.ErrNoRows`);
* `total_amount`/`amount` (Go float64, SQL DECIMAL(10,2)) are modelled as `Rat`;
  every value the claims exercise is exactly representable;
* the Go slice accumulation plus `json.Encoder.Encode` distinction between a
  nil slice (encoded as the literal null) and a non-empty slice is modelled by
  `Option (List _)` with `goAccumulate` and `goEncodeSlice`.
-/

/-- Digits of a decimal numeral; `none` when the character list is empty or
contains a non-digit (mirrors `strconv.Atoi` syntax errors). -/
def digitsVal? (cs : List Char) : Option Nat :=
  if cs.isEmpty then none
  else cs.foldl
    (fun acc c => acc.bind (fun n => if c.isDigit then some (10 * n + (c.toNat - 48)) else none))
    (some 0)

/-- Model of Go `strconv.Atoi` success: optional sign followed by at least one
digit; any other shape is a syntax error (`none`). -/
def goAtoi (s : String) : Option Int :=
  match s.data with
  | [] => none
  | c :: cs =>
    if c = '+' then (digitsVal? cs).map (fun n => (n : Int))
    else if c = '-' then (digitsVal? cs).map (fun n => -(n : Int))
    else (digitsVal? (c :: cs)).map (fun n => (n : Int))

/-- The handlers write `id, _ := strconv.Atoi(vars["id"])`, discarding the
error; on a syntax error the returned value is 0. -/
def atoiOrZero (s : String) : Int :=
  (goAtoi s).getD 0

/-- Insert a row into a list sorted by the key `f`, keeping it sorted
(model of the ORDER BY id output order). -/
def insertBy {α : Type} (f : α → Int) (a : α) : List α → List α
  | [] => [a]
  | b :: l => if f a ≤ f b then a :: b :: l else b :: insertBy f a l

/-- Sort a list of rows by the key `f` (model of ORDER BY id). -/
def sortBy {α : Type} (f : α → Int) : List α → List α
  | [] => []
  | a :: l => insertBy f a (sortBy f l)

theorem perm_insertBy {α : Type} (f : α → Int) (a : α) (l : List α) :
    (insertBy f a l).Perm (a :: l) := by
  induction l with
  | nil => exact List.Perm.refl _
  | cons b l ih =>
    by_cases h : f a ≤ f b
    · simp [insertBy, h]
    · simp only [insertBy, h, if_false]
      exact (ih.cons b).trans (List.Perm.swap a b l)

theorem perm_sortBy {α : Type} (f : α → Int) (l : List α) :
    (sortBy f l).Perm l := by
  induction l with
  | nil => exact List.Perm.refl _
  | cons a l ih =>
    exact (perm_insertBy f a (sortBy f l)).trans (ih.cons a)

theorem length_sortBy {α : Type} (f : α → Int) (l : List α) :
    (sortBy f l).length = l.length :=
  (perm_sortBy f l).length_eq

theorem pairwise_insertBy {α : Type} (f : α → Int) (a : α) (l : List α)
    (h : l.Pairwise (fun x y => f x ≤ f y)) :
    (insertBy f a l).Pairwise (fun x y => f x ≤ f y) := by
  induction l with
  | nil => simp [insertBy]
  | cons b l ih =>
    rcases h with _ | ⟨hb, hl⟩
    by_cases hab : f a ≤ f b
    · simp only [insertBy, hab, if_true]
      refine List.Pairwise.cons ?_ (List.Pairwise.cons hb hl)
      intro x hx
      rcases List.mem_cons.mp hx with rfl | hx
      · exact hab
      · exact le_trans hab (hb x hx)
    · simp only [insertBy, hab, if_false]
      refine List.Pairwise.cons ?_ (ih hl)
      intro x hx
      have hx' : x ∈ a :: l := (perm_insertBy f a l).mem_iff.mp hx
      rcases List.mem_cons.mp hx' with rfl | hx'
      · exact le_of_not_le hab
      · exact hb x hx'

theorem pairwise_sortBy {α : Type} (f : α → Int) (l : List α) :
    (sortBy f l).Pairwise (fun x y => f x ≤ f y) := by
  induction l with
  | nil => simp [sortBy]
  | cons a l ih => exact pairwise_insertBy f a (sortBy f l) ih

theorem pairwise_lt_of_le_nodup {α : Type} (f : α → Int) (l : List α)
    (hle : l.Pairwise (fun x y => f x ≤ f y)) (hnd : (l.map f).Nodup) :
    l.Pairwise (fun x y => f x < f y) := by
  have hne : l.Pairwise (fun x y => f x ≠ f y) := List.pairwise_map.mp hnd
  exact (hle.and hne).imp (fun h => lt_of_le_of_ne h.1 h.2)

/-- Outcome of a Create handler (POST): 400 on decode failure, 201 with the
returned row, 500 on a store error. -/
inductive CreateResult (α : Type) where
  | badRequest
  | created (x : α)
  | storeError
  deriving Repr, DecidableEq

/-- Outcome of an Update handler (PUT): 400 on decode failure, 200 with the
returned row, 404 on `sql.ErrNoRows`, 500 on any other store error. -/
inductive UpdateResult (α : Type) where
  | badRequest
  | ok (x : α)
  | notFound
  | storeError
  deriving Repr, DecidableEq

/-- Outcome of a Get handler. -/
inductive GetResult (α : Type) where
  | ok (x : α)
  | notFound
  | storeError
  deriving Repr, DecidableEq

/-- Outcome of a Delete handler: 204 empty body, 404 when zero rows were
affected, 500 on a store error. -/
inductive DeleteResult where
  | noContent
  | notFound
  | storeError
  deriving Repr, DecidableEq

/-- Outcome of a List handler. -/
inductive ListResult (α : Type) where
  | ok (xs : List α)
  | storeError
  deriving Repr, DecidableEq

/-- A row of the `users` table (001-users-init.sql); `created_at`/`updated_at`
timestamps are modelled as `Nat`. -/
structure UserRow where
  id : Int
  email : String
  name : String
  age : Int
  created_at : Nat
  updated_at : Nat
  deriving Repr, DecidableEq

/-- The users store: rows plus the SERIAL sequence value for `id`. -/
structure UsersDB where
  rows : List UserRow
  nextId : Int
  deriving Repr, DecidableEq

/-- Decoded JSON body for create/update of a user (fields the handlers bind:
email, name, age; id and audit fields from the body are ignored by the SQL). -/
structure UserPayload where
  email : String
  name : String
  age : Int
  deriving Repr, DecidableEq

/-- The SQL statements the users handlers execute. -/
inductive UsersOp where
  | insertUsersReturning (email nm : String) (age : Int)
  | updateUsersReturning (id : Int) (email nm : String) (age : Int)
  | selectUserById (id : Int)
  | selectUsersAll
  | deleteUsersById (id : Int)
  deriving Repr, DecidableEq

/-- Result of one SQL statement: returned rows (RETURNING / SELECT), affected
row count (Exec), or a constraint-violation error. -/
inductive UsersOpResult where
  | rows (rs : List UserRow)
  | affected (n : Nat)
  | checkFailed
  deriving Repr, DecidableEq

/-- Schema constraints of 001-users-init.sql applicable to a written row:
VARCHAR(255) widths and CHECK (age >= 0 AND age <= 150). -/
def usersRowChecks (email nm : String) (age : Int) : Bool :=
  decide (email.length ≤ 255) && decide (nm.length ≤ 255) &&
  decide (0 ≤ age) && decide (age ≤ 150)

/-- Semantics of one users-table SQL statement against the store, with `now`
standing for NOW()/CURRENT_TIMESTAMP at that statement (the
update_users_updated_at trigger and the explicit SET updated_at=NOW() agree). -/
def execUsersOp (op : UsersOp) (now : Nat) (db : UsersDB) : UsersDB × UsersOpResult :=
  match op with
  | .insertUsersReturning e nm a =>
    if usersRowChecks e nm a && !(db.rows.any (fun r => r.email == e)) then
      let r : UserRow := ⟨db.nextId, e, nm, a, now, now⟩
      (⟨db.rows ++ [r], db.nextId + 1⟩, .rows [r])
    else (db, .checkFailed)
  | .updateUsersReturning i e nm a =>
    match db.rows.find? (fun r => r.id == i) with
    | none => (db, .rows [])
    | some old =>
      if usersRowChecks e nm a && !(db.rows.any (fun r => (r.id != i) && (r.email == e))) then
        (⟨db.rows.map (fun r =>
            if r.id == i then { r with email := e, name := nm, age := a, updated_at := now } else r),
          db.nextId⟩,
         .rows [{ old with email := e, name := nm, age := a, updated_at := now }])
      else (db, .checkFailed)
  | .selectUserById i =>
    match db.rows.find? (fun r => r.id == i) with
    | some r => (db, .rows [r])
    | none => (db, .rows [])
  | .selectUsersAll => (db, .rows ((sortBy UserRow.id db.rows).take 100))
  | .deleteUsersById i =>
    (⟨db.rows.filter (fun r => r.id != i), db.nextId⟩,
     .affected (db.rows.filter (fun r => r.id == i)).length)

/-- `createUser`: decode the body (400 on failure), then one
INSERT .. RETURNING via `db.QueryRow`; any statement error yields 500. -/
def createUser (body : Option UserPayload) (now : Nat) (db : UsersDB) :
    UsersDB × List UsersOp × CreateResult UserRow :=
  match body with
  | none => (db, [], .badRequest)
  | some u =>
    match execUsersOp (.insertUsersReturning u.email u.name u.age) now db with
    | (db', .rows (r :: _)) => (db', [.insertUsersReturning u.email u.name u.age], .created r)
    | (db', _) => (db', [.insertUsersReturning u.email u.name u.age], .storeError)

/-- `updateUser`: parse the id (error discarded), decode the body (400 on
failure), then one UPDATE .. RETURNING; `sql.ErrNoRows` yields 404, any other
statement error 500. -/
def updateUser (idStr : String) (body : Option UserPayload) (now : Nat) (db : UsersDB) :
    UsersDB × List UsersOp × UpdateResult UserRow :=
  match body with
  | none => (db, [], .badRequest)
  | some u =>
    let i := atoiOrZero idStr
    match execUsersOp (.updateUsersReturning i u.email u.name u.age) now db with
    | (db', .rows (r :: _)) => (db', [.updateUsersReturning i u.email u.name u.age], .ok r)
    | (db', .rows []) => (db', [.updateUsersReturning i u.email u.name u.age], .notFound)
    | (db', _) => (db', [.updateUsersReturning i u.email u.name u.age], .storeError)

/-- `getUser`: parse the id (error discarded), one SELECT by id;
`sql.ErrNoRows` yields 404. -/
def getUser (idStr : String) (db : UsersDB) : UsersDB × List UsersOp × GetResult UserRow :=
  let i := atoiOrZero idStr
  match execUsersOp (.selectUserById i) 0 db with
  | (db', .rows (r :: _)) => (db', [.selectUserById i], .ok r)
  | (db', .rows []) => (db', [.selectUserById i], .notFound)
  | (db', _) => (db', [.selectUserById i], .storeError)

/-- `getUsers`: one SELECT .. ORDER BY id LIMIT 100. -/
def getUsers (db : UsersDB) : UsersDB × List UsersOp × ListResult UserRow :=
  match execUsersOp .selectUsersAll 0 db with
  | (db', .rows rs) => (db', [.selectUsersAll], .ok rs)
  | (db', _) => (db', [.selectUsersAll], .storeError)

/-- `deleteUser`: parse the id (error discarded), one DELETE via `db.Exec`;
zero affected rows yields 404, otherwise 204. -/
def deleteUser (idStr : String) (db : UsersDB) : UsersDB × List UsersOp × DeleteResult :=
  let i := atoiOrZero idStr
  match execUsersOp (.deleteUsersById i) 0 db with
  | (db', .affected 0) => (db', [.deleteUsersById i], .notFound)
  | (db', .affected (_ + 1)) => (db', [.deleteUsersById i], .noContent)
  | (db', _) => (db', [.deleteUsersById i], .storeError)

/-- Well-formedness of a users store, as the schema guarantees it: the SERIAL
sequence is at least 1, every row id is at least 1 and below the sequence, and
ids are pairwise distinct (PRIMARY KEY). -/
def WFUsers (db : UsersDB) : Prop :=
  1 ≤ db.nextId ∧ (∀ r ∈ db.rows, 1 ≤ r.id ∧ r.id < db.nextId) ∧
  (db.rows.map UserRow.id).Nodup

instance (db : UsersDB) : Decidable (WFUsers db) := by
  unfold WFUsers
  infer_instance

/-- The users store after the demo data of 001-users-init.sql (timestamps
normalised to 0). -/
def usersBootstrapDB : UsersDB :=
  ⟨[⟨1, "alice@example.com", "Alice Johnson", 28, 0, 0⟩,
    ⟨2, "bob@example.com", "Bob Smith", 35, 0, 0⟩,
    ⟨3, "charlie@example.com", "Charlie Brown", 42, 0, 0⟩], 4⟩

/-- A row of the `orders` table as the Go orders service reads it
(002-orders-init.sql; the `items` JSONB column is never selected or written by
the service and is omitted). `total_amount` is modelled as `Rat`. -/
structure OrderRow where
  id : Int
  user_id : Int
  total_amount : Rat
  status : String
  created_at : Nat
  updated_at : Nat
  deriving Repr, DecidableEq

/-- The orders store: rows plus the SERIAL sequence value for `id`. -/
structure OrdersDB where
  rows : List OrderRow
  nextId : Int
  deriving Repr, DecidableEq

/-- Decoded JSON body for create/update of an order. -/
structure OrderPayload where
  user_id : Int
  total_amount : Rat
  status : String
  deriving Repr, DecidableEq

/-- The SQL statements the orders handlers execute. -/
inductive OrdersOp where
  | insertOrdersReturning (userId : Int) (total : Rat) (status : String)
  | updateOrdersReturning (id : Int) (userId : Int) (total : Rat) (status : String)
  | selectOrderById (id : Int)
  | selectOrdersAll
  | deleteOrdersById (id : Int)
  deriving Repr, DecidableEq

/-- Result of one orders-table SQL statement. -/
inductive OrdersOpResult where
  | rows (rs : List OrderRow)
  | affected (n : Nat)
  | checkFailed
  deriving Repr, DecidableEq

/-- Schema constraints of 002-orders-init.sql applicable to a written row:
CHECK (total_amount >= 0) and the VARCHAR(50) width of `status`. There is no
database constraint restricting `status` to particular values. -/
def ordersRowChecks (total : Rat) (status : String) : Bool :=
  decide (0 ≤ total) && decide (status.length ≤ 50)

/-- Semantics of one orders-table SQL statement against the store. -/
def execOrdersOp (op : OrdersOp) (now : Nat) (db : OrdersDB) : OrdersDB × OrdersOpResult :=
  match op with
  | .insertOrdersReturning uid total st =>
    if ordersRowChecks total st then
      let r : OrderRow := ⟨db.nextId, uid, total, st, now, now⟩
      (⟨db.rows ++ [r], db.nextId + 1⟩, .rows [r])
    else (db, .checkFailed)
  | .updateOrdersReturning i uid total st =>
    match db.rows.find? (fun r => r.id == i) with
    | none => (db, .rows [])
    | some old =>
      if ordersRowChecks total st then
        (⟨db.rows.map (fun r =>
            if r.id == i then { r with user_id := uid, total_amount := total, status := st, updated_at := now } else r),
          db.nextId⟩,
         .rows [{ old with user_id := uid, total_amount := total, status := st, updated_at := now }])
      else (db, .checkFailed)
  | .selectOrderById i =>
    match db.rows.find? (fun r => r.id == i) with
    | some r => (db, .rows [r])
    | none => (db, .rows [])
  | .selectOrdersAll => (db, .rows ((sortBy OrderRow.id db.rows).take 100))
  | .deleteOrdersById i =>
    (⟨db.rows.filter (fun r => r.id != i), db.nextId⟩,
     .affected (db.rows.filter (fun r => r.id == i)).length)

/-- `createOrder`: decode the body (400 on failure), then one
INSERT .. RETURNING; any statement error yields 500. No payload validation is
performed before the statement. -/
def createOrder (body : Option OrderPayload) (now : Nat) (db : OrdersDB) :
    OrdersDB × List OrdersOp × CreateResult OrderRow :=
  match body with
  | none => (db, [], .badRequest)
  | some o =>
    match execOrdersOp (.insertOrdersReturning o.user_id o.total_amount o.status) now db with
    | (db', .rows (r :: _)) =>
      (db', [.insertOrdersReturning o.user_id o.total_amount o.status], .created r)
    | (db', _) =>
      (db', [.insertOrdersReturning o.user_id o.total_amount o.status], .storeError)

/-- `updateOrder`: parse the id (error discarded), decode the body (400 on
failure), then one UPDATE .. RETURNING; `sql.ErrNoRows` yields 404, any other
statement error 500. -/
def updateOrder (idStr : String) (body : Option OrderPayload) (now : Nat) (db : OrdersDB) :
    OrdersDB × List OrdersOp × UpdateResult OrderRow :=
  match body with
  | none => (db, [], .badRequest)
  | some o =>
    let i := atoiOrZero idStr
    match execOrdersOp (.updateOrdersReturning i o.user_id o.total_amount o.status) now db with
    | (db', .rows (r :: _)) =>
      (db', [.updateOrdersReturning i o.user_id o.total_amount o.status], .ok r)
    | (db', .rows []) =>
      (db', [.updateOrdersReturning i o.user_id o.total_amount o.status], .notFound)
    | (db', _) =>
      (db', [.updateOrdersReturning i o.user_id o.total_amount o.status], .storeError)

/-- `getOrders`: one SELECT .. ORDER BY id LIMIT 100. -/
def getOrders (db : OrdersDB) : OrdersDB × List OrdersOp × ListResult OrderRow :=
  match execOrdersOp .selectOrdersAll 0 db with
  | (db', .rows rs) => (db', [.selectOrdersAll], .ok rs)
  | (db', _) => (db', [.selectOrdersAll], .storeError)

/-- Response of the `/system-id` probe. -/
structure SystemInfo where
  replica_id : String
  timestamp : String
  deriving Repr, DecidableEq

/-- The environment variable the orders service reads at startup. -/
def replicaKey : String := "REPLICA_ID"

/-- Model of `os.Getenv`: the empty string when the variable is absent. -/
def osGetenv (env : String → Option String) (nm : String) : String :=
  (env nm).getD ""

/-- Startup initialisation of the replica identifier:
`replicaID = os.Getenv("REPLICA_ID"); if replicaID == "" { replicaID = "default" }`. -/
def initReplicaID (env : String → Option String) : String :=
  let r := osGetenv env replicaKey
  if r = "" then "default" else r

/-- `getSystemID`: returns the startup replica identifier and a literal
placeholder timestamp; it executes no SQL statement and leaves the store
untouched. -/
def getSystemID (replicaID : String) (db : OrdersDB) :
    OrdersDB × List OrdersOp × SystemInfo :=
  (db, [], ⟨replicaID, "NOW()"⟩)

/-- Well-formedness of an orders store (same schema guarantees as users). -/
def WFOrders (db : OrdersDB) : Prop :=
  1 ≤ db.nextId ∧ (∀ r ∈ db.rows, 1 ≤ r.id ∧ r.id < db.nextId) ∧
  (db.rows.map OrderRow.id).Nodup

instance (db : OrdersDB) : Decidable (WFOrders db) := by
  unfold WFOrders
  infer_instance

/-- The orders store after the demo data of 002-orders-init.sql (timestamps
normalised to 0): statuses completed / processing / created. -/
def ordersBootstrapDB : OrdersDB :=
  ⟨[⟨1, 1, 2500, "completed", 0, 0⟩,
    ⟨2, 2, 800, "processing", 0, 0⟩,
    ⟨3, 3, 1200, "created", 0, 0⟩], 4⟩

/-- The status values declared for Order by the spec and by the struct tag
`oneof=pending confirmed shipped delivered cancelled`. -/
def declaredOrderStatuses : List String :=
  ["pending", "confirmed", "shipped", "delivered", "cancelled"]

/-- A row of the `payments` table as the Go payments service reads it. -/
structure PaymentRow where
  id : Int
  order_id : Int
  amount : Rat
  status : String
  payment_method : String
  created_at : Nat
  updated_at : Nat
  deriving Repr, DecidableEq

/-- The payments store. -/
structure PaymentsDB where
  rows : List PaymentRow
  nextId : Int
  deriving Repr, DecidableEq

/-- Go slice append on a possibly-nil slice: `users = append(users, u)`;
a nil slice (`none`) becomes a one-element non-nil slice. -/
def goAppend {α : Type} (acc : Option (List α)) (x : α) : Option (List α) :=
  some (acc.getD [] ++ [x])

/-- The row-scanning loop of every List handler: start from the nil slice
`var xs []T` and append each row in query order. -/
def goAccumulate {α : Type} (rs : List α) : Option (List α) :=
  rs.foldl goAppend none

/-- Separator used by the JSON array encoding. -/
def commaSep : String := ","

/-- Model of `json.Encoder.Encode` applied to a Go slice: the nil slice encodes
as the literal null, a non-nil slice as a bracketed array. -/
def goEncodeSlice {α : Type} (enc : α → String) : Option (List α) → String
  | none => "null"
  | some l => "[" ++ String.intercalate commaSep (l.map enc) ++ "]"

/-- JSON object encoding of one user row (field order of the Go struct). -/
def encodeUserJson (u : UserRow) : String :=
  "\x7b\"id\":" ++ toString u.id ++ ",\"email\":\"" ++ u.email ++
  "\",\"name\":\"" ++ u.name ++ "\",\"age\":" ++ toString u.age ++
  ",\"createdAt\":\"" ++ toString u.created_at ++ "\",\"updatedAt\":\"" ++
  toString u.updated_at ++ "\"\x7d"

/-- JSON object encoding of one payment row (field order of the Go struct). -/
def encodePaymentJson (p : PaymentRow) : String :=
  "\x7b\"id\":" ++ toString p.id ++ ",\"order_id\":" ++ toString p.order_id ++
  ",\"amount\":" ++ toString p.amount.num ++ ",\"status\":\"" ++ p.status ++
  "\",\"payment_method\":\"" ++ p.payment_method ++ "\",\"createdAt\":\"" ++
  toString p.created_at ++ "\",\"updatedAt\":\"" ++ toString p.updated_at ++ "\"\x7d"

/-- Body written by `getUsers`: accumulate the rows of
SELECT .. ORDER BY id LIMIT 100 into the initially-nil slice, then encode. -/
def getUsersBody (db : UsersDB) : String :=
  goEncodeSlice encodeUserJson (goAccumulate ((sortBy UserRow.id db.rows).take 100))

/-- Body written by `getPayments`: same accumulation over the payments query. -/
def getPaymentsBody (db : PaymentsDB) : String :=
  goEncodeSlice encodePaymentJson (goAccumulate ((sortBy PaymentRow.id db.rows).take 100))

/-- Environment with no variables set (used to exercise the replica-id default). -/
def emptyEnv : String → Option String := fun _ => none

/-- C1: the claim says a Create whose payload violates the validation table is
rejected with ValidationFailed (400) before any write, leaving the row count
unchanged. The code performs no payload validation: an Order create with
total_amount 0 (which violates the declared constraint total amount > 0, but
passes the database CHECK total_amount >= 0) is inserted and returned with 201,
and the store row count increases by one. -/
theorem create_zero_total_inserted :
    (createOrder (some ⟨1, 0, "pending"⟩) 10 ordersBootstrapDB).2.2
      = CreateResult.created ⟨4, 1, 0, "pending", 10, 10⟩ ∧
    (createOrder (some ⟨1, 0, "pending"⟩) 10 ordersBootstrapDB).1.rows.length
      = ordersBootstrapDB.rows.length + 1 := by decide

/-- C2: every successful Create and Update returns the row produced by the one
INSERT .. RETURNING / UPDATE .. RETURNING statement that performed the
mutation: the handler's store trace is exactly that single statement and the
response equals the row that statement returned (shown for users create,
users update, and orders update, the places the spec cites). -/
theorem mutation_returns_single_statement_row :
    (∀ (u : UserPayload) (now : Nat) (db db' : UsersDB) (tr : List UsersOp) (r : UserRow),
      createUser (some u) now db = (db', tr, .created r) →
        tr = [.insertUsersReturning u.email u.name u.age] ∧
        execUsersOp (.insertUsersReturning u.email u.name u.age) now db = (db', .rows [r])) ∧
    (∀ (idStr : String) (u : UserPayload) (now : Nat) (db db' : UsersDB)
        (tr : List UsersOp) (r : UserRow),
      updateUser idStr (some u) now db = (db', tr, .ok r) →
        tr = [.updateUsersReturning (atoiOrZero idStr) u.email u.name u.age] ∧
        execUsersOp (.updateUsersReturning (atoiOrZero idStr) u.email u.name u.age) now db
          = (db', .rows [r])) ∧
    (∀ (idStr : String) (o : OrderPayload) (now : Nat) (db db' : OrdersDB)
        (tr : List OrdersOp) (r : OrderRow),
      updateOrder idStr (some o) now db = (db', tr, .ok r) →
        tr = [.updateOrdersReturning (atoiOrZero idStr) o.user_id o.total_amount o.status] ∧
        execOrdersOp (.updateOrdersReturning (atoiOrZero idStr) o.user_id o.total_amount o.status)
          now db = (db', .rows [r])) := by
  refine ⟨?_, ?_, ?_⟩
  · intro u now db db' tr r h
    simp only [createUser, execUsersOp] at h ⊢
    by_cases hc : (usersRowChecks u.email u.name u.age &&
        !db.rows.any fun rr => rr.email == u.email) = true
    · rw [if_pos hc] at h ⊢
      simp only [Prod.mk.injEq, CreateResult.created.injEq] at h
      obtain ⟨hdb, htr, hr⟩ := h
      subst hdb htr hr
      exact ⟨rfl, rfl⟩
    · rw [if_neg hc] at h
      simp only [Prod.mk.injEq] at h
      exact absurd h.2.2 (by simp)
  · intro idStr u now db db' tr r h
    simp only [updateUser, execUsersOp] at h ⊢
    cases hfind : db.rows.find? (fun rr => rr.id == atoiOrZero idStr) with
    | none =>
      simp only [hfind, Prod.mk.injEq] at h
      exact absurd h.2.2 (by simp)
    | some old =>
      simp only [hfind] at h ⊢
      by_cases hc : (usersRowChecks u.email u.name u.age &&
          !db.rows.any fun rr => rr.id != atoiOrZero idStr && rr.email == u.email) = true
      · simp only [hc, if_true] at h ⊢
        simp only [Prod.mk.injEq, UpdateResult.ok.injEq] at h
        obtain ⟨hdb, htr, hr⟩ := h
        subst hdb htr hr
        exact ⟨rfl, rfl⟩
      · simp only [hc, if_false, Bool.false_eq_true] at h
        simp only [Prod.mk.injEq] at h
        exact absurd h.2.2 (by simp)
  · intro idStr o now db db' tr r h
    simp only [updateOrder, execOrdersOp] at h ⊢
    cases hfind : db.rows.find? (fun rr => rr.id == atoiOrZero idStr) with
    | none =>
      simp only [hfind, Prod.mk.injEq] at h
      exact absurd h.2.2 (by simp)
    | some old =>
      simp only [hfind] at h ⊢
      by_cases hc : ordersRowChecks o.total_amount o.status = true
      · simp only [hc, if_true] at h ⊢
        simp only [Prod.mk.injEq, UpdateResult.ok.injEq] at h
        obtain ⟨hdb, htr, hr⟩ := h
        subst hdb htr hr
        exact ⟨rfl, rfl⟩
      · simp only [hc, if_false, Bool.false_eq_true] at h
        simp only [Prod.mk.injEq] at h
        exact absurd h.2.2 (by simp)

/-- Witness for C2: a concrete successful create on the bootstrap store
returns exactly the row of its single INSERT .. RETURNING statement. -/
theorem mutation_returns_single_statement_row_witness :
    execUsersOp (.insertUsersReturning ("dora@example.com") ("Dora") 30) 5 usersBootstrapDB
      = (⟨usersBootstrapDB.rows ++ [⟨4, "dora@example.com", "Dora", 30, 5, 5⟩], 5⟩,
         .rows [⟨4, "dora@example.com", "Dora", 30, 5, 5⟩]) :=
  (mutation_returns_single_statement_row.1 ⟨"dora@example.com", "Dora", 30⟩ 5 usersBootstrapDB
    ⟨usersBootstrapDB.rows ++ [⟨4, "dora@example.com", "Dora", 30, 5, 5⟩], 5⟩
    [.insertUsersReturning ("dora@example.com") ("Dora") 30]
    ⟨4, "dora@example.com", "Dora", 30, 5, 5⟩ (by decide)).2

/-- C3: the claim says Update validates the payload first and short-circuits
before any store access, so an invalid payload yields ValidationFailed (400)
regardless of target existence. The code validates nothing: an update of the
existing identity 1 with age 151 executes its UPDATE statement (non-empty
store trace), the database CHECK rejects it, and the handler answers with a
500 store error; the same invalid payload against the absent identity 999
answers 404. ValidationFailed is never produced. -/
theorem invalid_update_reaches_store :
    (updateUser ("1") (some ⟨"alice@example.com", "Alice Johnson", 151⟩) 10 usersBootstrapDB).2.2
      = UpdateResult.storeError ∧
    (updateUser ("1") (some ⟨"alice@example.com", "Alice Johnson", 151⟩) 10 usersBootstrapDB).2.1
      ≠ [] ∧
    (updateUser ("999") (some ⟨"alice@example.com", "Alice Johnson", 151⟩) 10 usersBootstrapDB).2.2
      = UpdateResult.notFound := by decide

/-- C4: the claim says the Order status field only ever holds one of
pending / confirmed / shipped / delivered / cancelled. The schema bootstrap of
002-orders-init.sql persists the statuses completed, processing and created,
none of which is declared, and createOrder persists any client-supplied status
string (here zzz) unvalidated. -/
theorem bootstrap_persists_undeclared_status :
    ordersBootstrapDB.rows.any (fun r => !(declaredOrderStatuses.contains r.status)) = true ∧
    (createOrder (some ⟨1, 5, "zzz"⟩) 7 ordersBootstrapDB).2.2
      = CreateResult.created ⟨4, 1, 5, "zzz", 7, 7⟩ ∧
    declaredOrderStatuses.contains ("zzz") = false := by decide

/-- C5: List returns the stored rows in ascending identity order, at most 100
of them, and never fails in-model (its only failure mode is store
unavailability, which the pure store cannot exhibit); when the store holds
K ≤ 100 rows the response is a permutation of them, i.e. exactly K entries.
Shown for the users and the orders service, the places the spec cites. -/
theorem list_sorted_capped (udb : UsersDB) (odb : OrdersDB)
    (hu : WFUsers udb) (ho : WFOrders odb) :
    (∃ l, getUsers udb = (udb, [.selectUsersAll], .ok l) ∧
      l.length = min 100 udb.rows.length ∧
      l.Pairwise (fun a b => a.id < b.id) ∧
      (udb.rows.length ≤ 100 → l.Perm udb.rows)) ∧
    (∃ l, getOrders odb = (odb, [.selectOrdersAll], .ok l) ∧
      l.length = min 100 odb.rows.length ∧
      l.Pairwise (fun a b => a.id < b.id) ∧
      (odb.rows.length ≤ 100 → l.Perm odb.rows)) := by
  constructor
  · refine ⟨(sortBy UserRow.id udb.rows).take 100, rfl, ?_, ?_, ?_⟩
    · rw [List.length_take, length_sortBy]
    · have hle := pairwise_sortBy UserRow.id udb.rows
      have hnd : ((sortBy UserRow.id udb.rows).map UserRow.id).Nodup :=
        (((perm_sortBy UserRow.id udb.rows).map UserRow.id).symm).nodup hu.2.2
      exact List.Pairwise.sublist (List.take_sublist 100 _) (pairwise_lt_of_le_nodup _ _ hle hnd)
    · intro hlen
      rw [List.take_of_length_le (by rw [length_sortBy]; exact hlen)]
      exact perm_sortBy UserRow.id udb.rows
  · refine ⟨(sortBy OrderRow.id odb.rows).take 100, rfl, ?_, ?_, ?_⟩
    · rw [List.length_take, length_sortBy]
    · have hle := pairwise_sortBy OrderRow.id odb.rows
      have hnd : ((sortBy OrderRow.id odb.rows).map OrderRow.id).Nodup :=
        (((perm_sortBy OrderRow.id odb.rows).map OrderRow.id).symm).nodup ho.2.2
      exact List.Pairwise.sublist (List.take_sublist 100 _) (pairwise_lt_of_le_nodup _ _ hle hnd)
    · intro hlen
      rw [List.take_of_length_le (by rw [length_sortBy]; exact hlen)]
      exact perm_sortBy OrderRow.id odb.rows

/-- Witness for C5 at the bootstrap stores (3 rows each, well-formed). -/
theorem list_sorted_capped_witness :
    (∃ l, getUsers usersBootstrapDB = (usersBootstrapDB, [.selectUsersAll], .ok l) ∧
      l.length = min 100 usersBootstrapDB.rows.length ∧
      l.Pairwise (fun a b => a.id < b.id) ∧
      (usersBootstrapDB.rows.length ≤ 100 → l.Perm usersBootstrapDB.rows)) ∧
    (∃ l, getOrders ordersBootstrapDB = (ordersBootstrapDB, [.selectOrdersAll], .ok l) ∧
      l.length = min 100 ordersBootstrapDB.rows.length ∧
      l.Pairwise (fun a b => a.id < b.id) ∧
      (ordersBootstrapDB.rows.length ≤ 100 → l.Perm ordersBootstrapDB.rows)) :=
  list_sorted_capped usersBootstrapDB ordersBootstrapDB (by decide) (by decide)

/-- C6: a valid update of an existing identity returns a row with the same
identity, the stored created_at unchanged, and updated_at strictly above its
prior stored value (given that NOW() at the update statement is strictly later
than the prior updated_at). -/
theorem update_keeps_identity_and_created (idStr : String) (u : UserPayload) (now : Nat)
    (db : UsersDB) (old : UserRow)
    (hfind : db.rows.find? (fun r => r.id == atoiOrZero idStr) = some old)
    (hck : usersRowChecks u.email u.name u.age = true)
    (huq : db.rows.any (fun r => (r.id != atoiOrZero idStr) && (r.email == u.email)) = false)
    (ht : old.updated_at < now) :
    ∃ db', updateUser idStr (some u) now db =
        (db', [.updateUsersReturning (atoiOrZero idStr) u.email u.name u.age],
         .ok { old with email := u.email, name := u.name, age := u.age, updated_at := now }) ∧
      ({ old with email := u.email, name := u.name, age := u.age, updated_at := now } : UserRow).id
        = old.id ∧
      ({ old with email := u.email, name := u.name, age := u.age, updated_at := now } : UserRow).created_at
        = old.created_at ∧
      old.updated_at
        < ({ old with email := u.email, name := u.name, age := u.age, updated_at := now } : UserRow).updated_at := by
  refine ⟨⟨db.rows.map (fun r =>
      if r.id == atoiOrZero idStr
      then { r with email := u.email, name := u.name, age := u.age, updated_at := now } else r),
    db.nextId⟩, ?_, rfl, rfl, ht⟩
  simp only [updateUser, execUsersOp, hfind, hck, huq, Bool.not_false, Bool.and_self, if_true]

/-- Witness for C6: updating user 1 of the bootstrap store at time 10. -/
theorem update_keeps_identity_and_created_witness :
    ∃ db', updateUser ("1") (some ⟨"alice@example.com", "Alice Johnson", 29⟩) 10 usersBootstrapDB =
        (db', [.updateUsersReturning 1 ("alice@example.com") ("Alice Johnson") 29],
         .ok ⟨1, "alice@example.com", "Alice Johnson", 29, 0, 10⟩) ∧
      (⟨1, "alice@example.com", "Alice Johnson", 29, 0, 10⟩ : UserRow).id = (1 : Int) ∧
      (⟨1, "alice@example.com", "Alice Johnson", 29, 0, 10⟩ : UserRow).created_at = 0 ∧
      0 < (⟨1, "alice@example.com", "Alice Johnson", 29, 0, 10⟩ : UserRow).updated_at :=
  update_keeps_identity_and_created ("1") ⟨"alice@example.com", "Alice Johnson", 29⟩ 10
    usersBootstrapDB ⟨1, "alice@example.com", "Alice Johnson", 28, 0, 0⟩
    (by decide) (by decide) (by decide) (by decide)

/-- C7: after a successful delete, a Get of the same identity answers 404, and
a second Delete of the same identity also answers 404 with the store state
unchanged, so the end state after one or two deletes is the same. -/
theorem delete_get_redelete_notfound (idStr : String) (db db' : UsersDB) (tr : List UsersOp)
    (h : deleteUser idStr db = (db', tr, .noContent)) :
    (getUser idStr db').2.2 = .notFound ∧
    deleteUser idStr db' = (db', [.deleteUsersById (atoiOrZero idStr)], .notFound) := by
  simp only [deleteUser, execUsersOp] at h
  cases hcnt : (db.rows.filter (fun r => r.id == atoiOrZero idStr)).length with
  | zero =>
    simp only [hcnt, Prod.mk.injEq] at h
    exact absurd h.2.2 (by simp)
  | succ n =>
    simp only [hcnt, Prod.mk.injEq] at h
    obtain ⟨hdb, htr, -⟩ := h
    subst hdb htr
    have hfind : (db.rows.filter (fun r => r.id != atoiOrZero idStr)).find?
        (fun r => r.id == atoiOrZero idStr) = none := by
      rw [List.find?_eq_none]
      intro x hx
      rw [List.mem_filter] at hx
      simpa using hx.2
    constructor
    · simp only [getUser, execUsersOp, hfind]
    · have hzero : ((db.rows.filter (fun r => r.id != atoiOrZero idStr)).filter
          (fun r => r.id == atoiOrZero idStr)).length = 0 := by
        simp [List.filter_filter]
      have hsame : (db.rows.filter (fun r => r.id != atoiOrZero idStr)).filter
          (fun r => r.id != atoiOrZero idStr)
          = db.rows.filter (fun r => r.id != atoiOrZero idStr) := by
        simp [List.filter_filter]
      simp only [deleteUser, execUsersOp, hzero, hsame]

/-- Witness for C7: deleting user 2 of the bootstrap store, then getting and
deleting identity 2 again. -/
theorem delete_get_redelete_notfound_witness :
    (getUser ("2") ⟨[⟨1, "alice@example.com", "Alice Johnson", 28, 0, 0⟩,
        ⟨3, "charlie@example.com", "Charlie Brown", 42, 0, 0⟩], 4⟩).2.2 = .notFound ∧
    deleteUser ("2") ⟨[⟨1, "alice@example.com", "Alice Johnson", 28, 0, 0⟩,
        ⟨3, "charlie@example.com", "Charlie Brown", 42, 0, 0⟩], 4⟩
      = (⟨[⟨1, "alice@example.com", "Alice Johnson", 28, 0, 0⟩,
          ⟨3, "charlie@example.com", "Charlie Brown", 42, 0, 0⟩], 4⟩,
         [.deleteUsersById (atoiOrZero ("2"))], .notFound) :=
  delete_get_redelete_notfound ("2") usersBootstrapDB
    ⟨[⟨1, "alice@example.com", "Alice Johnson", 28, 0, 0⟩,
      ⟨3, "charlie@example.com", "Charlie Brown", 42, 0, 0⟩], 4⟩
    [.deleteUsersById (atoiOrZero ("2"))] (by decide)

/-- C8: the replica probe executes no SQL statement, leaves the store
untouched, and always reports the identifier computed once at startup from
configuration; when the REPLICA_ID variable is absent that identifier is the
string default. -/
theorem system_id_static_no_store (env : String → Option String) (db : OrdersDB)
    (h : env replicaKey = none) :
    initReplicaID env = "default" ∧
    getSystemID (initReplicaID env) db = (db, [], ⟨"default", "NOW()"⟩) := by
  have h1 : initReplicaID env = "default" := by
    simp [initReplicaID, osGetenv, h]
  exact ⟨h1, by rw [h1]; rfl⟩

/-- Witness for C8: the probe against the bootstrap store with no environment. -/
theorem system_id_static_no_store_witness :
    initReplicaID emptyEnv = "default" ∧
    getSystemID (initReplicaID emptyEnv) ordersBootstrapDB
      = (ordersBootstrapDB, [], ⟨"default", "NOW()"⟩) :=
  system_id_static_no_store emptyEnv ordersBootstrapDB rfl

/-- C9: a non-numeric id path segment makes strconv.Atoi fail; the handlers
discard the error, so the id becomes 0; since a well-formed store assigns only
identities at least 1, the Get and the Delete answer 404, not a 400
malformed-input error. -/
theorem malformed_id_treated_as_zero (s : String) (db : UsersDB)
    (hwf : WFUsers db) (hs : goAtoi s = none) :
    atoiOrZero s = 0 ∧
    getUser s db = (db, [.selectUserById 0], .notFound) ∧
    deleteUser s db = (db, [.deleteUsersById 0], .notFound) := by
  have h0 : atoiOrZero s = 0 := by simp [atoiOrZero, hs]
  have hids : ∀ r ∈ db.rows, (r.id == (0 : Int)) = false := by
    intro r hr
    have h1 := (hwf.2.1 r hr).1
    simp only [beq_eq_false_iff_ne, ne_eq]
    omega
  have hfind : db.rows.find? (fun r => r.id == (0 : Int)) = none := by
    rw [List.find?_eq_none]
    intro x hx
    simp [hids x hx]
  have hnil : db.rows.filter (fun r => r.id == (0 : Int)) = [] := by
    rw [List.filter_eq_nil_iff]
    intro x hx
    simp [hids x hx]
  have hall : db.rows.filter (fun r => r.id != (0 : Int)) = db.rows := by
    rw [List.filter_eq_self]
    intro x hx
    have h1 := (hwf.2.1 x hx).1
    simp only [bne_iff_ne, ne_eq]
    omega
  refine ⟨h0, ?_, ?_⟩
  · simp only [getUser, execUsersOp, h0, hfind]
  · simp only [deleteUser, execUsersOp, h0, hnil, hall, List.length_nil]

/-- Witness for C9: the path segment abc against the bootstrap store. -/
theorem malformed_id_treated_as_zero_witness :
    atoiOrZero ("abc") = 0 ∧
    getUser ("abc") usersBootstrapDB = (usersBootstrapDB, [.selectUserById 0], .notFound) ∧
    deleteUser ("abc") usersBootstrapDB = (usersBootstrapDB, [.deleteUsersById 0], .notFound) :=
  malformed_id_treated_as_zero ("abc") usersBootstrapDB (by decide) (by decide)

/-- C10: when the List query yields zero rows the accumulating Go slice stays
nil and the encoded response body is the JSON literal null, not the empty
array (shown for the users and the payments service, the places the spec
cites). -/
theorem empty_list_encodes_null (udb : UsersDB) (pdb : PaymentsDB)
    (hu : udb.rows = []) (hp : pdb.rows = []) :
    goAccumulate ([] : List UserRow) = none ∧
    getUsersBody udb = "null" ∧
    getPaymentsBody pdb = "null" ∧
    getUsersBody udb ≠ "[]" := by
  have h1 : getUsersBody udb = "null" := by
    simp only [getUsersBody, hu]
    rfl
  have h2 : getPaymentsBody pdb = "null" := by
    simp only [getPaymentsBody, hp]
    rfl
  refine ⟨rfl, h1, h2, ?_⟩
  rw [h1]
  decide

/-- Witness for C10: both stores empty. -/
theorem empty_list_encodes_null_witness :
    goAccumulate ([] : List UserRow) = none ∧
    getUsersBody ⟨[], 1⟩ = "null" ∧
    getPaymentsBody ⟨[], 1⟩ = "null" ∧
    getUsersBody ⟨[], 1⟩ ≠ "[]" :=
  empty_list_encodes_null ⟨[], 1⟩ ⟨[], 1⟩ rfl rfl
